import Mathlib

/-!
Verification of the conversational orchestration pipeline of the I.R.I.S
billing assistant (`app/ai/`): the state model, the seven pipeline nodes,
the pipeline engine, and the Redis conversation-state (de)serialization.

The Python source is shallowly embedded:
* dataclasses become structures;
* `Enum` classes become inductive types with a `value` projection;
* Python `dict[str, Any]` payloads (tool results, the entity `raw` bag)
  become association lists over a small JSON-like value type;
* `float` confidences become rationals (the only float operation the
  pipeline performs on them is a comparison against the literal `0.7`,
  on which exact decimal rationals and IEEE doubles agree for the
  decimal literals involved);
* `datetime` values are abstracted by their ISO-format string (the
  pipeline never inspects the creation timestamp, it only serializes and
  deserializes it);
* the LLM provider port is an explicit function-record parameter;
* `datetime.now().date()` is an explicit `today` parameter.
-/

namespace IRIS

/-- JSON-like values, modelling Python `dict[str, Any]` payload values
as they occur in tool results and the entity `raw` bag. -/
inductive JValue where
  | null : JValue
  | str (s : String) : JValue
  | int (n : Int) : JValue
  | bool (b : Bool) : JValue
deriving DecidableEq, Repr

/-- Python `f"{value}"` display of a payload value. -/
def JValue.display : JValue → String
  | .null => "None"
  | .str s => s
  | .int n => toString n
  | .bool b => if b then "True" else "False"

/-- Source `Intent` enum from `app/ai/state.py`. -/
inductive Intent where
  | CREATE_BOLETO
  | CANCEL_BOLETO
  | CHECK_STATUS
  | SEND_MESSAGE
  | LIST_BOLETOS
  | GENERAL_QUESTION
  | UNKNOWN
deriving DecidableEq, Repr

/-- The `.value` string of each `Intent` member. -/
def Intent.value : Intent → String
  | .CREATE_BOLETO => "create_boleto"
  | .CANCEL_BOLETO => "cancel_boleto"
  | .CHECK_STATUS => "check_status"
  | .SEND_MESSAGE => "send_message"
  | .LIST_BOLETOS => "list_boletos"
  | .GENERAL_QUESTION => "general_question"
  | .UNKNOWN => "unknown"

/-- Source `Intent.requires_confirmation`: true only for the two monetary intents. -/
def Intent.requiresConfirmation (i : Intent) : Bool :=
  i == .CREATE_BOLETO || i == .CANCEL_BOLETO

/-- Source `ValidationResult` enum from `app/ai/state.py`. -/
inductive ValidationResult where
  | PASS
  | FAIL
  | CLARIFY
deriving DecidableEq, Repr

def ValidationResult.value : ValidationResult → String
  | .PASS => "pass"
  | .FAIL => "fail"
  | .CLARIFY => "clarify"

/-- Source `ConfirmationStatus` enum from `app/ai/state.py`. -/
inductive ConfirmationStatus where
  | PENDING
  | CONFIRMED
  | REJECTED
  | NOT_REQUIRED
deriving DecidableEq, Repr

def ConfirmationStatus.value : ConfirmationStatus → String
  | .PENDING => "pending"
  | .CONFIRMED => "confirmed"
  | .REJECTED => "rejected"
  | .NOT_REQUIRED => "not_required"

/-- Source `ExtractedEntities` dataclass from `app/ai/state.py`. -/
structure ExtractedEntities where
  contact_name : Option String := none
  contact_phone : Option String := none
  amount_cents : Option Int := none
  due_date : Option String := none
  boleto_id : Option String := none
  message_content : Option String := none
  raw : List (String × JValue) := []
deriving DecidableEq, Repr

/-- Source `AIGraphState` dataclass from `app/ai/state.py`.  The `created_at`
timestamp is abstracted by its ISO string. -/
structure AIGraphState where
  conversation_id : String := ""
  tenant_id : Option String := none
  user_id : Option String := none
  user_input : String := ""
  input_type : String := "text"
  normalized_input : Option String := none
  intent : Option Intent := none
  intent_confidence : ℚ := 0
  entities : ExtractedEntities := {}
  validation_result : ValidationResult := .FAIL
  validation_errors : List String := []
  confirmation_status : ConfirmationStatus := .NOT_REQUIRED
  confirmation_message : Option String := none
  tool_name : Option String := none
  tool_result : Option (List (String × JValue)) := none
  tool_error : Option String := none
  response : Option String := none
  created_at : String := ""
  step_count : Nat := 0
  correlation_id : Option String := none
deriving DecidableEq, Repr

/-- The keyword-argument set of an `AIGraphState.with_updates(...)` call:
`some v` overrides the field with `v`, `none` leaves it alone. -/
structure Overrides where
  conversation_id : Option String := none
  tenant_id : Option (Option String) := none
  user_id : Option (Option String) := none
  user_input : Option String := none
  input_type : Option String := none
  normalized_input : Option (Option String) := none
  intent : Option (Option Intent) := none
  intent_confidence : Option ℚ := none
  entities : Option ExtractedEntities := none
  validation_result : Option ValidationResult := none
  validation_errors : Option (List String) := none
  confirmation_status : Option ConfirmationStatus := none
  confirmation_message : Option (Option String) := none
  tool_name : Option (Option String) := none
  tool_result : Option (Option (List (String × JValue))) := none
  tool_error : Option (Option String) := none
  response : Option (Option String) := none
  created_at : Option String := none
  step_count : Option Nat := none
  correlation_id : Option (Option String) := none

/-- Source `AIGraphState.with_updates`: copy the state, increment the step
counter, then apply the keyword overrides on top (an explicit
`step_count=` keyword would replace the incremented value, exactly as
`current.update(kwargs)` does in the source). -/
def AIGraphState.withUpdates (s : AIGraphState) (o : Overrides) : AIGraphState where
  conversation_id := o.conversation_id.getD s.conversation_id
  tenant_id := o.tenant_id.getD s.tenant_id
  user_id := o.user_id.getD s.user_id
  user_input := o.user_input.getD s.user_input
  input_type := o.input_type.getD s.input_type
  normalized_input := o.normalized_input.getD s.normalized_input
  intent := o.intent.getD s.intent
  intent_confidence := o.intent_confidence.getD s.intent_confidence
  entities := o.entities.getD s.entities
  validation_result := o.validation_result.getD s.validation_result
  validation_errors := o.validation_errors.getD s.validation_errors
  confirmation_status := o.confirmation_status.getD s.confirmation_status
  confirmation_message := o.confirmation_message.getD s.confirmation_message
  tool_name := o.tool_name.getD s.tool_name
  tool_result := o.tool_result.getD s.tool_result
  tool_error := o.tool_error.getD s.tool_error
  response := o.response.getD s.response
  created_at := o.created_at.getD s.created_at
  step_count := o.step_count.getD (s.step_count + 1)
  correlation_id := o.correlation_id.getD s.correlation_id

/-- Source `AIGraphState.should_stop`: response set, tool error set, or the
confirmation was rejected. -/
def AIGraphState.shouldStop (s : AIGraphState) : Bool :=
  s.response.isSome || s.tool_error.isSome ||
    s.confirmation_status == .REJECTED

/-! ### Python string helpers -/

/-- Characters removed by Python `str.strip()` (the ASCII whitespace
set; the pipeline never feeds it exotic Unicode whitespace). -/
def pyIsSpace (c : Char) : Bool :=
  c == ' ' || c == '\t' || c == '\n' || c == '\r' ||
    c == '\x0b' || c == '\x0c'

/-- Python `str.strip()`. -/
def pyStrip (s : String) : String :=
  String.mk (((s.toList.dropWhile pyIsSpace).reverse.dropWhile pyIsSpace).reverse)

/-- Python `str.lower()` (ASCII case mapping; every place the pipeline
lowercases, the relevant keywords it compares against are ASCII-cased). -/
def pyLower (s : String) : String :=
  String.mk (s.toList.map Char.toLower)

/-- Character-list containment: some suffix of `hay` starts with `n`. -/
def listContains (n : List Char) : List Char → Bool
  | [] => n.isEmpty
  | c :: rest => n.isPrefixOf (c :: rest) || listContains n rest

/-- Python `needle in hay` substring containment. -/
def substrIn (needle hay : String) : Bool :=
  listContains needle.toList hay.toList

/-- Split a character list on a separator character (empty pieces kept,
as in Python `str.split(sep)`). -/
def splitOnCharList (sep : Char) : List Char → List (List Char)
  | [] => [[]]
  | c :: rest =>
    let r := splitOnCharList sep rest
    if c == sep then [] :: r
    else
      match r with
      | [] => [[c]]
      | h :: t => (c :: h) :: t

/-- Python `s.split("-")` (single-character separator). -/
def pySplitDash (s : String) : List String :=
  (splitOnCharList '-' s.toList).map String.mk

/-! ### LLM provider port (`app/application/ports/providers/llm.py`) -/

/-- Source `IntentClassificationResult` dataclass. -/
structure IntentClassificationResult where
  success : Bool
  intent : Option String := none
  confidence : ℚ := 0
  error_code : Option String := none
  error_message : Option String := none
deriving DecidableEq, Repr

/-- Source `ExtractedEntitiesResult` dataclass. -/
structure ExtractedEntitiesResult where
  success : Bool
  contact_name : Option String := none
  contact_phone : Option String := none
  amount_cents : Option Int := none
  due_date : Option String := none
  boleto_id : Option String := none
  message_content : Option String := none
  error_code : Option String := none
  error_message : Option String := none
deriving DecidableEq, Repr

/-- Source `LLMProviderPort`: the pipeline's only external collaborator,
embedded as a record of pure functions. -/
structure LLMPort where
  classifyIntent : String → IntentClassificationResult
  extractEntities : String → String → ExtractedEntitiesResult

/-! ### Calendar dates (`datetime.strptime(_, "%Y-%m-%d")` and
`date` comparison in `app/ai/nodes/validation_gate.py`) -/

/-- A calendar date (`datetime.date`). -/
structure PyDate where
  year : Nat
  month : Nat
  day : Nat
deriving DecidableEq, Repr

/-- Python `date` ordering, restricted to strict comparison. -/
def PyDate.lt (a b : PyDate) : Bool :=
  a.year < b.year ||
    (a.year == b.year && (a.month < b.month ||
      (a.month == b.month && a.day < b.day)))

/-- Decimal digit-string value (the strings fed to it are checked to
be all digits first). -/
def digitsToNat (cs : List Char) : Nat :=
  cs.foldl (fun acc c => acc * 10 + (c.toNat - 48)) 0

/-- Gregorian leap-year rule (as used by `datetime`). -/
def isLeapYear (y : Nat) : Bool :=
  y % 4 == 0 && (y % 100 != 0 || y % 400 == 0)

/-- Days in a month of a given year (as validated by the `datetime`
constructor). -/
def daysInMonth (y m : Nat) : Nat :=
  if m == 2 then (if isLeapYear y then 29 else 28)
  else if m == 4 || m == 6 || m == 9 || m == 11 then 30
  else 31

/-- Source `datetime.strptime(s, "%Y-%m-%d")`: exactly four digits of year,
one or two digits of month in 1..12 and of day in 1..31 (the `%m`/`%d`
patterns), the whole string consumed, and the day valid for the month
(enforced by the `datetime` constructor, which also requires year ≥ 1). -/
def strptimeYmd (s : String) : Option PyDate :=
  match pySplitDash s with
  | [y, m, d] =>
    if y.length == 4 && y.toList.all Char.isDigit &&
        1 ≤ m.length && m.length ≤ 2 && m.toList.all Char.isDigit &&
        1 ≤ d.length && d.length ≤ 2 && d.toList.all Char.isDigit then
      let yn := digitsToNat y.toList
      let mn := digitsToNat m.toList
      let dn := digitsToNat d.toList
      if 1 ≤ yn && 1 ≤ mn && mn ≤ 12 && 1 ≤ dn && dn ≤ daysInMonth yn mn then
        some ⟨yn, mn, dn⟩
      else none
    else none
  | _ => none

/-! ### Node 1 — `normalize_input` (`app/ai/nodes/input_normalization.py`) -/

/-- Source `normalize_input`: strip the raw input; empty input halts with the
fixed clarification message, otherwise record the lowercased, stripped
text. -/
def normalizeInput (s : AIGraphState) : AIGraphState :=
  let userInput := pyStrip s.user_input
  if userInput == "" then
    s.withUpdates
      { normalized_input := some none
        response := some (some "Não entendi sua mensagem. Pode repetir?") }
  else
    s.withUpdates
      { normalized_input := some (some (pyStrip (pyLower userInput))) }

/-! ### Node 2 — `classify_intent` (`app/ai/nodes/intent_classification.py`) -/

/-- Source `CONFIDENCE_THRESHOLD` constant (the decimal 0.7, built with an
explicit numerator and denominator so that comparisons against it
reduce inside the kernel; `threshold_value` below checks it equals the
decimal literal). -/
def CONFIDENCE_THRESHOLD : ℚ := Rat.mk' 7 10

/-- Source `_map_intent`: LLM intent string to `Intent`, defaulting to UNKNOWN. -/
def mapIntent (intentStr : Option String) : Intent :=
  match intentStr with
  | none => .UNKNOWN
  | some v =>
    match pyLower v with
    | "create_boleto" => .CREATE_BOLETO
    | "cancel_boleto" => .CANCEL_BOLETO
    | "check_status" => .CHECK_STATUS
    | "send_message" => .SEND_MESSAGE
    | "list_boletos" => .LIST_BOLETOS
    | "general_question" => .GENERAL_QUESTION
    | _ => .UNKNOWN

/-- The fixed disambiguation menu returned on low confidence. -/
def lowConfidenceMenu : String :=
  "Não tenho certeza do que você quer fazer. " ++
  "Você pode:\n" ++
  "- Criar um boleto\n" ++
  "- Cancelar um boleto\n" ++
  "- Ver status de um boleto\n" ++
  "- Enviar uma mensagem\n\n" ++
  "O que deseja?"

/-- Source `classify_intent`: skip when no normalized input or already halted;
on port failure set UNKNOWN and apologize; below threshold force
UNKNOWN and show the menu; otherwise record intent and confidence. -/
def classifyIntent (port : LLMPort) (s : AIGraphState) : AIGraphState :=
  match s.normalized_input with
  | none => s
  | some text =>
    if s.shouldStop then s
    else
      let result := port.classifyIntent text
      if !result.success then
        s.withUpdates
          { intent := some (some .UNKNOWN)
            intent_confidence := some 0
            response := some (some
              "Desculpe, tive um problema ao entender sua mensagem. Pode repetir?") }
      else
        let intent := mapIntent result.intent
        let confidence := result.confidence
        if confidence < CONFIDENCE_THRESHOLD then
          s.withUpdates
            { intent := some (some .UNKNOWN)
              intent_confidence := some confidence
              response := some (some lowConfidenceMenu) }
        else
          s.withUpdates
            { intent := some (some intent)
              intent_confidence := some confidence }

/-! ### Node 3 — `extract_entities` (`app/ai/nodes/entity_extraction.py`) -/

/-- Source `extract_entities`: skip when no intent or already halted; on port
failure continue with an empty entity bag; otherwise replace the bag
with the structured result. -/
def extractEntities (port : LLMPort) (s : AIGraphState) : AIGraphState :=
  match s.intent with
  | none => s
  | some intent =>
    if s.shouldStop then s
    else
      let result := port.extractEntities (s.normalized_input.getD "") intent.value
      if !result.success then
        s.withUpdates { entities := some {} }
      else
        s.withUpdates
          { entities := some
              { contact_name := result.contact_name
                contact_phone := result.contact_phone
                amount_cents := result.amount_cents
                due_date := result.due_date
                boleto_id := result.boleto_id
                message_content := result.message_content
                raw := [("llm_extracted", .bool true)] } }

/-! ### Node 4 — `validate_request` (`app/ai/nodes/validation_gate.py`) -/

/-- Source `REQUIRED_ENTITIES`: required entity field names per intent. -/
def REQUIRED_ENTITIES (i : Intent) : List String :=
  match i with
  | .CREATE_BOLETO => ["contact_name", "amount_cents", "due_date"]
  | .CANCEL_BOLETO => ["boleto_id"]
  | .CHECK_STATUS => ["boleto_id"]
  | .SEND_MESSAGE => ["contact_name", "message_content"]
  | .LIST_BOLETOS => []
  | .GENERAL_QUESTION => []
  | .UNKNOWN => []

/-- Source `FIELD_NAMES.get(f, f)`: human-readable field names. -/
def fieldName (f : String) : String :=
  match f with
  | "contact_name" => "nome do contato"
  | "contact_phone" => "telefone do contato"
  | "amount_cents" => "valor"
  | "due_date" => "data de vencimento"
  | "boleto_id" => "ID do boleto"
  | "message_content" => "conteúdo da mensagem"
  | _ => f

/-- Source `getattr(entities, field, None) is None` for a field-name string. -/
def entityFieldMissing (e : ExtractedEntities) (f : String) : Bool :=
  match f with
  | "contact_name" => e.contact_name.isNone
  | "contact_phone" => e.contact_phone.isNone
  | "amount_cents" => e.amount_cents.isNone
  | "due_date" => e.due_date.isNone
  | "boleto_id" => e.boleto_id.isNone
  | "message_content" => e.message_content.isNone
  | _ => true

/-- The missing-field subset, in required-list order. -/
def missingFields (e : ExtractedEntities) (i : Intent) : List String :=
  (REQUIRED_ENTITIES i).filter (entityFieldMissing e)

/-- The CLARIFY message: one missing name plain, several joined with
commas and a final " e ". -/
def clarifyMessage (missingNames : List String) : String :=
  if missingNames.length == 1 then
    "Para continuar, preciso saber: " ++ missingNames.headI ++ "."
  else
    "Para continuar, preciso saber: " ++
      String.intercalate ", " (missingNames.dropLast) ++
      " e " ++ (missingNames.getLastD "") ++ "."

/-- Source `_validate_values`: amount must be positive and at most
10,000,000 minor units; a present due date must parse as `%Y-%m-%d`
and must not be strictly before today. -/
def validateValues (today : PyDate) (s : AIGraphState) : List String :=
  let amountErrs :=
    match s.entities.amount_cents with
    | none => []
    | some a =>
      if a ≤ 0 then ["O valor precisa ser positivo."]
      else if a > 10000000 then ["O valor máximo permitido é R$ 100.000,00."]
      else []
  let dateErrs :=
    match s.entities.due_date with
    | none => []
    | some d =>
      match strptimeYmd d with
      | none => ["Data de vencimento inválida. Use o formato DD/MM/AAAA."]
      | some due =>
        if PyDate.lt due today then
          ["A data de vencimento não pode ser no passado."]
        else []
  amountErrs ++ dateErrs

/-- Source `validate_request`: skip when no intent or halted; missing required
fields give CLARIFY with a listing message; value errors give FAIL with
the first error; otherwise PASS with cleared errors. -/
def validateRequest (today : PyDate) (s : AIGraphState) : AIGraphState :=
  match s.intent with
  | none => s
  | some intent =>
    if s.shouldStop then s
    else
      let missing := missingFields s.entities intent
      if missing ≠ [] then
        s.withUpdates
          { validation_result := some .CLARIFY
            validation_errors := some missing
            response := some (some (clarifyMessage (missing.map fieldName))) }
      else
        let errors := validateValues today s
        if errors ≠ [] then
          s.withUpdates
            { validation_result := some .FAIL
              validation_errors := some errors
              response := some errors.head? }
        else
          s.withUpdates
            { validation_result := some .PASS
              validation_errors := some [] }

/-! ### Node 5 — `check_confirmation` (`app/ai/nodes/confirmation_gate.py`) -/

/-- Insert a thousands separator every three digits from the right. -/
def groupDigitsRev : List Char → List Char
  | a :: b :: c :: d :: rest => a :: b :: c :: '.' :: groupDigitsRev (d :: rest)
  | l => l

/-- Brazilian currency display of an amount in cents, the net effect of
`f"R$ {amount / 100:,.2f}"` followed by the comma/dot swap (exact for
the float-representable magnitudes the validator admits). -/
def formatCurrency (amount : Int) : String :=
  let m := amount.natAbs
  let intPart := String.mk ((groupDigitsRev (toString (m / 100)).toList.reverse).reverse)
  let cents := m % 100
  let centsPart := (if cents < 10 then "0" else "") ++ toString cents
  "R$ " ++ (if amount < 0 then "-" else "") ++ intPart ++ "," ++ centsPart

/-- Reformat `YYYY-MM-DD` to `DD/MM/YYYY` for display, as the gate does
by splitting on "-". -/
def formatDateBR (dueDate : String) : String :=
  if substrIn "-" dueDate then
    match pySplitDash dueDate with
    | [y, m, d] => d ++ "/" ++ m ++ "/" ++ y
    | _ => dueDate
  else dueDate

/-- Source `_generate_confirmation_message`. -/
def generateConfirmationMessage (s : AIGraphState) : String :=
  if s.intent == some .CREATE_BOLETO then
    let amount := s.entities.amount_cents.getD 0
    let amountFormatted := formatCurrency amount
    let contact := s.entities.contact_name.getD "contato"
    let dueDate := formatDateBR (s.entities.due_date.getD "data não especificada")
    "Vou criar um boleto de **" ++ amountFormatted ++ "** " ++
      "para **" ++ contact ++ "**, " ++
      "com vencimento em **" ++ dueDate ++ "**.\n\n" ++
      "Confirma? (Sim/Não)"
  else if s.intent == some .CANCEL_BOLETO then
    let boletoId := s.entities.boleto_id.getD "ID não especificado"
    "Vou cancelar o boleto **" ++ boletoId ++ "**.\n\nConfirma? (Sim/Não)"
  else
    "Confirma a operação? (Sim/Não)"

/-- The rejection keyword list scanned by the gate. -/
def rejectionWords : List String := ["não", "nao", "cancela", "cancelar", "pare"]

/-- The (dead-branch) confirmation keyword list scanned by the gate. -/
def confirmationWords : List String := ["sim", "confirmo", "pode", "ok", "certo", "isso"]

/-- Source `any(word in normalized for word in rejection_words)`. -/
def hasRejectionWord (normalized : String) : Bool :=
  rejectionWords.any (fun w => substrIn w normalized)

/-- Source `check_confirmation`: only on PASS, not halted, intent present.
Non-monetary intents get NOT_REQUIRED and continue.  Monetary intents:
a rejection keyword in the normalized text gives REJECTED with the
fixed cancellation message; otherwise — the confirmation-keyword scan
deliberately does nothing — status becomes PENDING and the generated
confirmation message is stored as both confirmation message and
response. -/
def checkConfirmation (s : AIGraphState) : AIGraphState :=
  if s.validation_result ≠ .PASS then s
  else if s.shouldStop then s
  else
    match s.intent with
    | none => s
    | some intent =>
      if !(Intent.requiresConfirmation intent) then
        s.withUpdates { confirmation_status := some .NOT_REQUIRED }
      else
        let normalized := pyLower (s.normalized_input.getD "")
        if hasRejectionWord normalized then
          s.withUpdates
            { confirmation_status := some .REJECTED
              response := some (some "Operação cancelada.") }
        else
          let confirmationMsg := generateConfirmationMessage s
          s.withUpdates
            { confirmation_status := some .PENDING
              confirmation_message := some (some confirmationMsg)
              response := some (some confirmationMsg) }

/-! ### Node 6 — `execute_tool` (`app/ai/nodes/tool_execution.py`) -/

/-- Source `ExtractedEntities` optional string to a payload value. -/
def optStr : Option String → JValue
  | none => .null
  | some v => .str v

/-- Source `ExtractedEntities` optional integer to a payload value. -/
def optInt : Option Int → JValue
  | none => .null
  | some v => .int v

/-- Source `_dispatch_tool`: map the intent to exactly one tool name and its
(placeholder) structured result.  The source's tool dispatch builds
these dictionaries directly and cannot raise. -/
def dispatchTool (s : AIGraphState) : String × List (String × JValue) :=
  match s.intent with
  | some .CREATE_BOLETO =>
    ("create_boleto",
      [("boleto_id", .str "placeholder_id"),
       ("status", .str "created"),
       ("amount_cents", optInt s.entities.amount_cents),
       ("due_date", optStr s.entities.due_date)])
  | some .CANCEL_BOLETO =>
    ("cancel_boleto",
      [("boleto_id", optStr s.entities.boleto_id),
       ("status", .str "cancelled")])
  | some .CHECK_STATUS =>
    ("get_boleto_status",
      [("boleto_id", optStr s.entities.boleto_id),
       ("status", .str "pending")])
  | some .SEND_MESSAGE =>
    ("queue_message",
      [("message_id", .str "placeholder_id"),
       ("status", .str "queued")])
  | some .LIST_BOLETOS =>
    ("list_boletos", [("count", .int 0)])
  | _ => ("none", [])

/-- Source `execute_tool`: the safety checks re-run fresh — validation PASS,
not halted, intent present, and for monetary intents confirmation
CONFIRMED — otherwise the state is returned unchanged.  On dispatch the
tool name and result are recorded (the dispatch itself cannot raise, so
the `tool_error` catch branch is dead in the source as shipped). -/
def executeTool (s : AIGraphState) : AIGraphState :=
  if s.validation_result ≠ .PASS then s
  else if s.shouldStop then s
  else
    match s.intent with
    | none => s
    | some intent =>
      if Intent.requiresConfirmation intent &&
          s.confirmation_status ≠ .CONFIRMED then s
      else
        let r := dispatchTool s
        s.withUpdates
          { tool_name := some (some r.1)
            tool_result := some (some r.2) }

/-! ### Node 7 — `generate_response` (`app/ai/nodes/response_generation.py`) -/

/-- Source `result.get(key, default)` over the modelled result dictionary. -/
def jGet (r : List (String × JValue)) (key : String) (dflt : JValue) : JValue :=
  match r.lookup key with
  | some v => v
  | none => dflt

/-- Integer read of a payload value (the formatting arithmetic in the
source; a `None` there would be a `TypeError`, and that shape is
unreachable because the dispatch always populates the field). -/
def jInt (v : JValue) : Int :=
  match v with
  | .int n => n
  | _ => 0

/-- The status-label mapping of `_format_response`. -/
def statusLabel (status : String) : String :=
  match status with
  | "created" => "Criado"
  | "sent" => "Enviado"
  | "paid" => "Pago"
  | "overdue" => "Vencido"
  | "cancelled" => "Cancelado"
  | other => other

/-- Source `_format_response`: deterministic per-intent formatting of the tool
result. -/
def formatResponse (s : AIGraphState) : String :=
  let result := s.tool_result.getD []
  if s.intent == some .CREATE_BOLETO then
    let amount := jInt (jGet result "amount_cents" (.int 0))
    let amountFormatted := formatCurrency amount
    let boletoId := (jGet result "boleto_id" (.str "")).display
    let dueDate := formatDateBR ((jGet result "due_date" (.str "")).display)
    "✅ Boleto criado com sucesso!\n\n" ++
      "**Valor:** " ++ amountFormatted ++ "\n" ++
      "**Vencimento:** " ++ dueDate ++ "\n" ++
      "**ID:** " ++ boletoId ++ "\n\n" ++
      "O boleto será enviado ao contato."
  else if s.intent == some .CANCEL_BOLETO then
    let boletoId := (jGet result "boleto_id" (.str "")).display
    "✅ Boleto **" ++ boletoId ++ "** cancelado com sucesso."
  else if s.intent == some .CHECK_STATUS then
    let boletoId := (jGet result "boleto_id" (.str "")).display
    let status := (jGet result "status" (.str "desconhecido")).display
    "📋 Status do boleto **" ++ boletoId ++ "**: " ++ statusLabel status
  else if s.intent == some .SEND_MESSAGE then
    "✅ Mensagem adicionada à fila de envio."
  else if s.intent == some .LIST_BOLETOS then
    let count := jGet result "count" (.int 0)
    if count == .int 0 then "📋 Você não tem boletos no momento."
    else "📋 Você tem " ++ count.display ++ " boleto(s)."
  else
    "✅ Operação concluída."

/-- Source `generate_response`: keep an already-set response; else surface a
tool error; else a generic completion notice when there is no tool
result; else the per-intent formatting. -/
def generateResponse (s : AIGraphState) : AIGraphState :=
  if s.response.isSome then s
  else
    match s.tool_error with
    | some err =>
      s.withUpdates
        { response := some (some
            ("Não foi possível completar a operação: " ++ err)) }
    | none =>
      if s.tool_result.isNone then
        s.withUpdates { response := some (some "Operação concluída.") }
      else
        s.withUpdates { response := some (some (formatResponse s)) }

/-! ### Pipeline engine — `AIGraph.run` (`app/ai/graph.py`)

`run` is parametrized by the injected LLM port, by `today` (the clock
read inside the validation gate), and by the fresh correlation-id
string (`str(uuid4())[:8]` in the source). -/

/-- The fixed ordered node list of `AIGraph.__init__`. -/
def graphNodes (port : LLMPort) (today : PyDate) :
    List (AIGraphState → AIGraphState) :=
  [normalizeInput,
   classifyIntent port,
   extractEntities port,
   validateRequest today,
   checkConfirmation,
   executeTool,
   generateResponse]

/-- The node loop of `AIGraph.run`: run each node in order, breaking as
soon as `should_stop` holds; also count the nodes that actually ran. -/
def runLoop : List (AIGraphState → AIGraphState) → AIGraphState →
    AIGraphState × Nat
  | [], s => (s, 0)
  | f :: rest, s =>
    let s' := f s
    if s'.shouldStop then (s', 1)
    else
      let r := runLoop rest s'
      (r.1, r.2 + 1)

/-- Correlation-id injection at the top of `AIGraph.run`. -/
def runInit (freshCorrelation : String) (s : AIGraphState) : AIGraphState :=
  if s.correlation_id.isNone then
    s.withUpdates { correlation_id := some (some freshCorrelation) }
  else s

/-- Source `AIGraph.run`: inject the correlation id if absent, then drive the
node loop to its terminal state. -/
def run (port : LLMPort) (today : PyDate) (freshCorrelation : String)
    (s : AIGraphState) : AIGraphState :=
  (runLoop (graphNodes port today) (runInit freshCorrelation s)).1

/-- The number of nodes the loop actually executed in a run. -/
def nodesExecuted (port : LLMPort) (today : PyDate)
    (freshCorrelation : String) (s : AIGraphState) : Nat :=
  (runLoop (graphNodes port today) (runInit freshCorrelation s)).2

/-! ### Conversation-state serialization
(`app/infrastructure/redis/conversation_state.py`) -/

/-- The JSON document written by
`ConversationStateStore._serialize_state` (the entity sub-document keeps
its dataclass shape; `correlation_id` has no key in the document). -/
structure SerializedState where
  conversation_id : String
  tenant_id : Option String
  user_id : Option String
  user_input : String
  input_type : String
  normalized_input : Option String
  intent : Option String
  intent_confidence : ℚ
  entities : ExtractedEntities
  validation_result : String
  validation_errors : List String
  confirmation_status : String
  confirmation_message : Option String
  tool_name : Option String
  tool_result : Option (List (String × JValue))
  tool_error : Option String
  response : Option String
  created_at : String
  step_count : Nat
deriving DecidableEq, Repr

/-- Source `_serialize_state`. -/
def serializeState (s : AIGraphState) : SerializedState where
  conversation_id := s.conversation_id
  tenant_id := s.tenant_id
  user_id := s.user_id
  user_input := s.user_input
  input_type := s.input_type
  normalized_input := s.normalized_input
  intent := s.intent.map Intent.value
  intent_confidence := s.intent_confidence
  entities := s.entities
  validation_result := s.validation_result.value
  validation_errors := s.validation_errors
  confirmation_status := s.confirmation_status.value
  confirmation_message := s.confirmation_message
  tool_name := s.tool_name
  tool_result := s.tool_result
  tool_error := s.tool_error
  response := s.response
  created_at := s.created_at
  step_count := s.step_count

/-- Source `Intent(value)` with the `except ValueError: UNKNOWN` fallback. -/
def intentParse (v : String) : Intent :=
  match v with
  | "create_boleto" => .CREATE_BOLETO
  | "cancel_boleto" => .CANCEL_BOLETO
  | "check_status" => .CHECK_STATUS
  | "send_message" => .SEND_MESSAGE
  | "list_boletos" => .LIST_BOLETOS
  | "general_question" => .GENERAL_QUESTION
  | "unknown" => .UNKNOWN
  | _ => .UNKNOWN

/-- Source `ValidationResult(value)`: raises on an unknown value, modelled as
failure. -/
def validationResultParse (v : String) : Option ValidationResult :=
  match v with
  | "pass" => some .PASS
  | "fail" => some .FAIL
  | "clarify" => some .CLARIFY
  | _ => none

/-- Source `ConfirmationStatus(value)`: raises on an unknown value, modelled
as failure. -/
def confirmationStatusParse (v : String) : Option ConfirmationStatus :=
  match v with
  | "pending" => some .PENDING
  | "confirmed" => some .CONFIRMED
  | "rejected" => some .REJECTED
  | "not_required" => some .NOT_REQUIRED
  | _ => none

/-- Source `_deserialize_state`: the intent string goes through the falsy
check `if data.get("intent"):` and the UNKNOWN fallback; the two other
enums raise (here: fail) on unknown values; `correlation_id` is not in
the document, so the dataclass default `None` applies. -/
def deserializeState (d : SerializedState) : Option AIGraphState := do
  let intent : Option Intent :=
    match d.intent with
    | none => none
    | some v => if v == "" then none else some (intentParse v)
  let vr ← validationResultParse d.validation_result
  let cs ← confirmationStatusParse d.confirmation_status
  pure
    { conversation_id := d.conversation_id
      tenant_id := d.tenant_id
      user_id := d.user_id
      user_input := d.user_input
      input_type := d.input_type
      normalized_input := d.normalized_input
      intent := intent
      intent_confidence := d.intent_confidence
      entities := d.entities
      validation_result := vr
      validation_errors := d.validation_errors
      confirmation_status := cs
      confirmation_message := d.confirmation_message
      tool_name := d.tool_name
      tool_result := d.tool_result
      tool_error := d.tool_error
      response := d.response
      created_at := d.created_at
      step_count := d.step_count
      correlation_id := none }

/-! ## Helper lemmas -/

/-- The kernel-friendly threshold constant is the source's decimal
literal `0.7`. -/
theorem threshold_is_the_source_literal : CONFIDENCE_THRESHOLD = 0.7 := by
  rw [CONFIDENCE_THRESHOLD, Rat.mk'_eq_divInt, Rat.divInt_eq_div]
  norm_num

/-- A user-facing response is present and non-empty. -/
def NonemptyResponse (s : AIGraphState) : Prop :=
  ∃ r, s.response = some r ∧ r ≠ ""

theorem append_ne_empty (a b : String) (h : a.data ≠ []) : a ++ b ≠ "" := by
  intro hc
  apply h
  have h2 : (a ++ b).data = [] := by rw [hc]
  rw [String.data_append] at h2
  exact (List.append_eq_nil.mp h2).1

theorem append_ne_left (a b : String) (h : a ≠ "") : a ++ b ≠ "" := by
  apply append_ne_empty
  intro hd
  apply h
  cases a
  simp_all

/-! ### Behaviour of `normalize_input` -/

theorem normalizeInput_step_count (s : AIGraphState) :
    (normalizeInput s).step_count = s.step_count + 1 := by
  unfold normalizeInput
  by_cases hc : (pyStrip s.user_input == "") = true <;>
    simp [hc, AIGraphState.withUpdates]

theorem normalizeInput_stop_propagates (s : AIGraphState)
    (h : s.shouldStop = true) : (normalizeInput s).shouldStop = true := by
  unfold normalizeInput
  unfold AIGraphState.shouldStop at h ⊢
  by_cases hc : (pyStrip s.user_input == "") = true <;>
    simp_all [AIGraphState.withUpdates]

theorem normalizeInput_halt_nonempty (s : AIGraphState)
    (h : s.shouldStop = false)
    (hh : (normalizeInput s).shouldStop = true) :
    NonemptyResponse (normalizeInput s) := by
  unfold normalizeInput at hh ⊢
  unfold AIGraphState.shouldStop at h hh
  by_cases hc : (pyStrip s.user_input == "") = true <;>
    simp_all [AIGraphState.withUpdates, NonemptyResponse]

theorem normalizeInput_cont (s : AIGraphState)
    (h : (normalizeInput s).shouldStop = false) :
    (normalizeInput s).normalized_input.isSome = true := by
  unfold normalizeInput at h ⊢
  unfold AIGraphState.shouldStop at h
  by_cases hc : (pyStrip s.user_input == "") = true <;>
    simp_all [AIGraphState.withUpdates]

/-! ### Behaviour of `classify_intent` -/

theorem classifyIntent_skip_none (port : LLMPort) (s : AIGraphState)
    (hn : s.normalized_input = none) : classifyIntent port s = s := by
  simp [classifyIntent, hn]

theorem classifyIntent_step_count (port : LLMPort) (s : AIGraphState)
    (h1 : s.normalized_input.isSome = true) (h2 : s.shouldStop = false) :
    (classifyIntent port s).step_count = s.step_count + 1 := by
  match hn : s.normalized_input with
  | none => simp [hn] at h1
  | some t =>
    unfold classifyIntent
    rw [hn]
    simp only [h2]
    by_cases hs : (port.classifyIntent t).success <;>
      by_cases hlt : (port.classifyIntent t).confidence < CONFIDENCE_THRESHOLD <;>
      simp [hs, hlt, AIGraphState.withUpdates]

theorem classifyIntent_halt_nonempty (port : LLMPort) (s : AIGraphState)
    (h2 : s.shouldStop = false)
    (hh : (classifyIntent port s).shouldStop = true) :
    NonemptyResponse (classifyIntent port s) := by
  match hn : s.normalized_input with
  | none =>
    rw [classifyIntent_skip_none port s hn] at hh
    exact absurd hh (by simp [h2])
  | some t =>
    unfold classifyIntent at hh ⊢
    rw [hn] at hh ⊢
    simp only [h2] at hh ⊢
    by_cases hs : (port.classifyIntent t).success
    · by_cases hlt : (port.classifyIntent t).confidence < CONFIDENCE_THRESHOLD
      · refine ⟨lowConfidenceMenu, ?_, by decide⟩
        simp [hs, hlt, AIGraphState.withUpdates]
      · exfalso
        unfold AIGraphState.shouldStop at h2 hh
        simp [hs, hlt, AIGraphState.withUpdates] at hh
        simp_all
    · refine ⟨"Desculpe, tive um problema ao entender sua mensagem. Pode repetir?",
        ?_, by decide⟩
      simp [hs, AIGraphState.withUpdates]

theorem classifyIntent_cont (port : LLMPort) (s : AIGraphState)
    (h1 : s.normalized_input.isSome = true) (h2 : s.shouldStop = false) :
    (classifyIntent port s).intent.isSome = true := by
  match hn : s.normalized_input with
  | none => simp [hn] at h1
  | some t =>
    unfold classifyIntent
    rw [hn]
    simp only [h2]
    by_cases hs : (port.classifyIntent t).success <;>
      by_cases hlt : (port.classifyIntent t).confidence < CONFIDENCE_THRESHOLD <;>
      simp [hs, hlt, AIGraphState.withUpdates]

/-! ### Behaviour of `extract_entities` -/

theorem extractEntities_step_count (port : LLMPort) (s : AIGraphState)
    (h1 : s.intent.isSome = true) (h2 : s.shouldStop = false) :
    (extractEntities port s).step_count = s.step_count + 1 := by
  match hn : s.intent with
  | none => simp [hn] at h1
  | some i =>
    unfold extractEntities
    rw [hn]
    simp only [h2]
    by_cases hs : (port.extractEntities (s.normalized_input.getD "") i.value).success <;>
      simp [hs, AIGraphState.withUpdates]

theorem extractEntities_no_halt (port : LLMPort) (s : AIGraphState)
    (h2 : s.shouldStop = false) :
    (extractEntities port s).shouldStop = false := by
  match hn : s.intent with
  | none => simp [extractEntities, hn, h2]
  | some i =>
    unfold extractEntities
    rw [hn]
    simp only [h2]
    unfold AIGraphState.shouldStop at h2 ⊢
    by_cases hs : (port.extractEntities (s.normalized_input.getD "") i.value).success <;>
      simp_all [AIGraphState.withUpdates]

theorem extractEntities_intent (port : LLMPort) (s : AIGraphState)
    (h2 : s.shouldStop = false) :
    (extractEntities port s).intent = s.intent := by
  match hn : s.intent with
  | none => simp [extractEntities, hn]
  | some i =>
    unfold extractEntities
    rw [hn]
    simp only [h2]
    by_cases hs : (port.extractEntities (s.normalized_input.getD "") i.value).success <;>
      simp [hs, AIGraphState.withUpdates, hn]

/-! ### Behaviour of `validate_request` -/

theorem validateValues_mem_ne (today : PyDate) (s : AIGraphState) :
    ∀ e ∈ validateValues today s, e ≠ "" := by
  intro e he
  unfold validateValues at he
  simp only [List.mem_append] at he
  rcases he with he | he
  · match ham : s.entities.amount_cents with
    | none => rw [ham] at he; simp at he
    | some a =>
      rw [ham] at he
      by_cases h1 : a ≤ 0
      · simp only [h1, if_true] at he
        simp at he
        subst he; decide
      · by_cases hgt : a > 10000000
        · simp only [h1, hgt, if_false, if_true] at he
          simp at he
          subst he; decide
        · simp [h1, hgt] at he
  · match hdd : s.entities.due_date with
    | none => rw [hdd] at he; simp at he
    | some d =>
      rw [hdd] at he
      have he2 : e ∈ (match strptimeYmd d with
          | none => ["Data de vencimento inválida. Use o formato DD/MM/AAAA."]
          | some due => if PyDate.lt due today then
              ["A data de vencimento não pode ser no passado."] else []) := he
      match hp : strptimeYmd d with
      | none =>
        rw [hp] at he2
        simp at he2
        subst he2; decide
      | some due =>
        rw [hp] at he2
        by_cases hl : PyDate.lt due today
        · simp only [hl, if_true] at he2
          simp at he2
          subst he2; decide
        · simp [hl] at he2

theorem validateRequest_step_count (today : PyDate) (s : AIGraphState)
    (h1 : s.intent.isSome = true) (h2 : s.shouldStop = false) :
    (validateRequest today s).step_count = s.step_count + 1 := by
  match hn : s.intent with
  | none => simp [hn] at h1
  | some i =>
    unfold validateRequest
    rw [hn]
    simp only [h2]
    by_cases hm : missingFields s.entities i = [] <;>
      by_cases he : validateValues today s = [] <;>
      simp [hm, he, AIGraphState.withUpdates]

theorem validateRequest_halt_nonempty (today : PyDate) (s : AIGraphState)
    (h2 : s.shouldStop = false)
    (hh : (validateRequest today s).shouldStop = true) :
    NonemptyResponse (validateRequest today s) := by
  match hn : s.intent with
  | none =>
    rw [show validateRequest today s = s by simp [validateRequest, hn]] at hh
    exact absurd hh (by simp [h2])
  | some i =>
    unfold validateRequest at hh ⊢
    rw [hn] at hh ⊢
    simp only [h2] at hh ⊢
    by_cases hm : missingFields s.entities i = []
    · by_cases he : validateValues today s = []
      · exfalso
        unfold AIGraphState.shouldStop at h2 hh
        simp [hm, he, AIGraphState.withUpdates] at hh
        simp_all
      · cases hv : validateValues today s with
        | nil => exact absurd hv he
        | cons x xs =>
          refine ⟨x, ?_, ?_⟩
          · simp [hm, he, AIGraphState.withUpdates, hv]
          · exact validateValues_mem_ne today s x (by rw [hv]; exact List.mem_cons_self x xs)
    · refine ⟨clarifyMessage ((missingFields s.entities i).map fieldName), ?_, ?_⟩
      · simp [hm, AIGraphState.withUpdates]
      · unfold clarifyMessage
        split <;> (repeat' apply append_ne_left) <;> decide

theorem validateRequest_cont (today : PyDate) (s : AIGraphState) (i : Intent)
    (hi : s.intent = some i) (h2 : s.shouldStop = false)
    (h3 : (validateRequest today s).shouldStop = false) :
    (validateRequest today s).validation_result = .PASS ∧
      (validateRequest today s).intent = some i := by
  unfold validateRequest at h3 ⊢
  rw [hi] at h3 ⊢
  simp only [h2] at h3 ⊢
  by_cases hm : missingFields s.entities i = []
  · by_cases he : validateValues today s = []
    · simp [hm, he, AIGraphState.withUpdates, hi]
    · exfalso
      unfold AIGraphState.shouldStop at h3
      simp [hm, he, AIGraphState.withUpdates] at h3
  · exfalso
    unfold AIGraphState.shouldStop at h3
    simp [hm, AIGraphState.withUpdates] at h3

/-! ### Behaviour of `check_confirmation` -/

theorem generateConfirmationMessage_ne (s : AIGraphState) :
    generateConfirmationMessage s ≠ "" := by
  unfold generateConfirmationMessage
  split
  · repeat' apply append_ne_left
    decide
  · split
    · repeat' apply append_ne_left
      decide
    · decide

theorem checkConfirmation_step_count (s : AIGraphState) (i : Intent)
    (hi : s.intent = some i) (hv : s.validation_result = .PASS)
    (h2 : s.shouldStop = false) :
    (checkConfirmation s).step_count = s.step_count + 1 := by
  unfold checkConfirmation
  rw [hi]
  simp only [hv, h2]
  by_cases hr : Intent.requiresConfirmation i <;>
    by_cases hw : hasRejectionWord (pyLower (s.normalized_input.getD "")) <;>
    simp [hr, hw, AIGraphState.withUpdates]

theorem checkConfirmation_halt_nonempty (s : AIGraphState) (i : Intent)
    (hi : s.intent = some i) (hv : s.validation_result = .PASS)
    (h2 : s.shouldStop = false)
    (hh : (checkConfirmation s).shouldStop = true) :
    NonemptyResponse (checkConfirmation s) := by
  unfold checkConfirmation at hh ⊢
  rw [hi] at hh ⊢
  simp only [hv, h2] at hh ⊢
  by_cases hr : Intent.requiresConfirmation i
  · by_cases hw : hasRejectionWord (pyLower (s.normalized_input.getD ""))
    · refine ⟨"Operação cancelada.", ?_, by decide⟩
      simp [hr, hw, AIGraphState.withUpdates]
    · refine ⟨generateConfirmationMessage s, ?_, generateConfirmationMessage_ne s⟩
      simp [hr, hw, AIGraphState.withUpdates]
  · exfalso
    unfold AIGraphState.shouldStop at h2 hh
    simp [hr, AIGraphState.withUpdates] at hh
    simp_all

theorem checkConfirmation_cont (s : AIGraphState) (i : Intent)
    (hi : s.intent = some i) (hv : s.validation_result = .PASS)
    (h2 : s.shouldStop = false)
    (h3 : (checkConfirmation s).shouldStop = false) :
    (checkConfirmation s).validation_result = .PASS ∧
      (checkConfirmation s).intent = some i ∧
      Intent.requiresConfirmation i = false := by
  unfold checkConfirmation at h3 ⊢
  rw [hi] at h3 ⊢
  simp only [hv, h2] at h3 ⊢
  by_cases hr : Intent.requiresConfirmation i
  · exfalso
    by_cases hw : hasRejectionWord (pyLower (s.normalized_input.getD ""))
    · unfold AIGraphState.shouldStop at h3
      simp [hr, hw, AIGraphState.withUpdates] at h3
    · unfold AIGraphState.shouldStop at h3
      simp [hr, hw, AIGraphState.withUpdates] at h3
  · simp [hr, AIGraphState.withUpdates, hv, hi]

/-! ### Behaviour of `execute_tool` -/

theorem executeTool_dispatch (s : AIGraphState) (i : Intent)
    (hi : s.intent = some i) (hv : s.validation_result = .PASS)
    (h2 : s.shouldStop = false)
    (hc : Intent.requiresConfirmation i = false ∨
      s.confirmation_status = .CONFIRMED) :
    executeTool s = s.withUpdates
      { tool_name := some (some (dispatchTool s).1)
        tool_result := some (some (dispatchTool s).2) } := by
  unfold executeTool
  rw [hi]
  simp only [hv, h2]
  rcases hc with hc | hc <;> simp [hc]

theorem executeTool_step_count (s : AIGraphState) (i : Intent)
    (hi : s.intent = some i) (hv : s.validation_result = .PASS)
    (h2 : s.shouldStop = false)
    (hc : Intent.requiresConfirmation i = false ∨
      s.confirmation_status = .CONFIRMED) :
    (executeTool s).step_count = s.step_count + 1 := by
  rw [executeTool_dispatch s i hi hv h2 hc]
  simp [AIGraphState.withUpdates]

theorem executeTool_stop_false (s : AIGraphState)
    (h2 : s.shouldStop = false) :
    (executeTool s).shouldStop = false := by
  unfold executeTool
  by_cases hv : s.validation_result ≠ .PASS
  · rw [if_pos hv]; exact h2
  · rw [if_neg hv, if_neg (show ¬s.shouldStop = true by simp [h2])]
    split
    · exact h2
    · split
      · exact h2
      · unfold AIGraphState.shouldStop at h2 ⊢
        simp_all [AIGraphState.withUpdates]

/-! ### Behaviour of `generate_response` -/

theorem formatResponse_ne (s : AIGraphState) : formatResponse s ≠ "" := by
  unfold formatResponse
  split
  · repeat' apply append_ne_left
    decide
  · split
    · repeat' apply append_ne_left
      decide
    · split
      · repeat' apply append_ne_left
        decide
      · split
        · decide
        · split
          · by_cases hc :
              (jGet (s.tool_result.getD []) "count" (JValue.int 0) == JValue.int 0) = true
            · simp only [hc, if_true]
              decide
            · simp [hc]
              repeat' apply append_ne_left
              decide
          · decide

theorem generateResponse_nonempty (s : AIGraphState)
    (h2 : s.shouldStop = false) :
    NonemptyResponse (generateResponse s) := by
  unfold AIGraphState.shouldStop at h2
  simp only [Bool.or_eq_false_iff] at h2
  unfold generateResponse
  have hr : s.response.isSome = false := h2.1.1
  have he : s.tool_error = none := by
    have := h2.1.2
    simpa using this
  rw [hr, he]
  simp only [Bool.false_eq_true, if_false]
  by_cases ht : s.tool_result.isNone
  · refine ⟨"Operação concluída.", ?_, by decide⟩
    simp [ht, AIGraphState.withUpdates]
  · refine ⟨formatResponse s, ?_, formatResponse_ne s⟩
    simp [ht, AIGraphState.withUpdates]

theorem generateResponse_step_count (s : AIGraphState)
    (h2 : s.shouldStop = false) :
    (generateResponse s).step_count = s.step_count + 1 := by
  unfold AIGraphState.shouldStop at h2
  simp only [Bool.or_eq_false_iff] at h2
  unfold generateResponse
  have hr : s.response.isSome = false := h2.1.1
  have he : s.tool_error = none := by
    have := h2.1.2
    simpa using this
  rw [hr, he]
  simp only [Bool.false_eq_true, if_false]
  by_cases ht : s.tool_result.isNone <;> simp [ht, AIGraphState.withUpdates]

/-! ### Assembling the pipeline runs -/

theorem runLoop_cons (f : AIGraphState → AIGraphState)
    (rest : List (AIGraphState → AIGraphState)) (s : AIGraphState) :
    runLoop (f :: rest) s =
      if (f s).shouldStop then (f s, 1)
      else ((runLoop rest (f s)).1, (runLoop rest (f s)).2 + 1) := rfl

theorem runLoop_stopped (port : LLMPort) (today : PyDate) (s : AIGraphState)
    (h : s.shouldStop = true) :
    runLoop (graphNodes port today) s = (normalizeInput s, 1) := by
  simp only [graphNodes, runLoop_cons]
  rw [if_pos (normalizeInput_stop_propagates s h)]

theorem runLoop_graph (port : LLMPort) (today : PyDate) (s : AIGraphState)
    (h : s.shouldStop = false) :
    ((runLoop (graphNodes port today) s).1.step_count
        = s.step_count + (runLoop (graphNodes port today) s).2)
    ∧ (runLoop (graphNodes port today) s).2 ≤ 7
    ∧ (runLoop (graphNodes port today) s).2 ≠ 6
    ∧ (runLoop (graphNodes port today) s).2 ≠ 0
    ∧ NonemptyResponse (runLoop (graphNodes port today) s).1 := by
  have b1 := normalizeInput_step_count s
  simp only [graphNodes, runLoop_cons]
  by_cases c1 : (normalizeInput s).shouldStop = true
  · rw [if_pos c1]
    have hne := normalizeInput_halt_nonempty s h c1
    refine ⟨?_, ?_, ?_, ?_, ?_⟩
    · exact show (normalizeInput s).step_count = s.step_count + 1 by omega
    · exact show (1:ℕ) ≤ 7 by omega
    · exact show (1:ℕ) ≠ 6 by omega
    · exact show (1:ℕ) ≠ 0 by omega
    · exact hne
  · have c1f : (normalizeInput s).shouldStop = false := by simpa using c1
    have hn1 := normalizeInput_cont s c1f
    have b2 := classifyIntent_step_count port (normalizeInput s) hn1 c1f
    rw [if_neg c1]
    by_cases c2 : (classifyIntent port (normalizeInput s)).shouldStop = true
    · rw [if_pos c2]
      have hne := classifyIntent_halt_nonempty port (normalizeInput s) c1f c2
      refine ⟨?_, ?_, ?_, ?_, ?_⟩
      · exact show (classifyIntent port (normalizeInput s)).step_count = s.step_count + 2 by omega
      · exact show (2:ℕ) ≤ 7 by omega
      · exact show (2:ℕ) ≠ 6 by omega
      · exact show (2:ℕ) ≠ 0 by omega
      · exact hne
    · have c2f : (classifyIntent port (normalizeInput s)).shouldStop = false := by simpa using c2
      have hi2 := classifyIntent_cont port (normalizeInput s) hn1 c1f
      have c3f := extractEntities_no_halt port (classifyIntent port (normalizeInput s)) c2f
      have hi3eq := extractEntities_intent port (classifyIntent port (normalizeInput s)) c2f
      have hi3 : (extractEntities port (classifyIntent port (normalizeInput s))).intent.isSome = true := by rw [hi3eq]; exact hi2
      have b3 := extractEntities_step_count port (classifyIntent port (normalizeInput s)) hi2 c2f
      rw [if_neg c2, if_neg (show ¬(extractEntities port (classifyIntent port (normalizeInput s))).shouldStop = true by simp [c3f])]
      obtain ⟨i, hi⟩ := Option.isSome_iff_exists.mp hi3
      have b4 := validateRequest_step_count today (extractEntities port (classifyIntent port (normalizeInput s))) hi3 c3f
      by_cases c4 : (validateRequest today (extractEntities port (classifyIntent port (normalizeInput s)))).shouldStop = true
      · rw [if_pos c4]
        have hne := validateRequest_halt_nonempty today (extractEntities port (classifyIntent port (normalizeInput s))) c3f c4
        refine ⟨?_, ?_, ?_, ?_, ?_⟩
        · exact show (validateRequest today (extractEntities port (classifyIntent port (normalizeInput s)))).step_count = s.step_count + 4 by omega
        · exact show (4:ℕ) ≤ 7 by omega
        · exact show (4:ℕ) ≠ 6 by omega
        · exact show (4:ℕ) ≠ 0 by omega
        · exact hne
      · have c4f : (validateRequest today (extractEntities port (classifyIntent port (normalizeInput s)))).shouldStop = false := by simpa using c4
        obtain ⟨hv4, hi4⟩ := validateRequest_cont today (extractEntities port (classifyIntent port (normalizeInput s))) i hi c3f c4f
        have b5 := checkConfirmation_step_count (validateRequest today (extractEntities port (classifyIntent port (normalizeInput s)))) i hi4 hv4 c4f
        rw [if_neg c4]
        by_cases c5 : (checkConfirmation (validateRequest today (extractEntities port (classifyIntent port (normalizeInput s))))).shouldStop = true
        · rw [if_pos c5]
          have hne := checkConfirmation_halt_nonempty (validateRequest today (extractEntities port (classifyIntent port (normalizeInput s)))) i hi4 hv4 c4f c5
          refine ⟨?_, ?_, ?_, ?_, ?_⟩
          · exact show (checkConfirmation (validateRequest today (extractEntities port (classifyIntent port (normalizeInput s))))).step_count = s.step_count + 5 by omega
          · exact show (5:ℕ) ≤ 7 by omega
          · exact show (5:ℕ) ≠ 6 by omega
          · exact show (5:ℕ) ≠ 0 by omega
          · exact hne
        · have c5f : (checkConfirmation (validateRequest today (extractEntities port (classifyIntent port (normalizeInput s))))).shouldStop = false := by simpa using c5
          obtain ⟨hv5, hi5, hr5⟩ := checkConfirmation_cont (validateRequest today (extractEntities port (classifyIntent port (normalizeInput s)))) i hi4 hv4 c4f c5f
          have c6f := executeTool_stop_false (checkConfirmation (validateRequest today (extractEntities port (classifyIntent port (normalizeInput s))))) c5f
          have b6 := executeTool_step_count (checkConfirmation (validateRequest today (extractEntities port (classifyIntent port (normalizeInput s))))) i hi5 hv5 c5f (Or.inl hr5)
          rw [if_neg c5, if_neg (show ¬(executeTool (checkConfirmation (validateRequest today (extractEntities port (classifyIntent port (normalizeInput s)))))).shouldStop = true by simp [c6f])]
          have b7 := generateResponse_step_count (executeTool (checkConfirmation (validateRequest today (extractEntities port (classifyIntent port (normalizeInput s)))))) c6f
          have hne := generateResponse_nonempty (executeTool (checkConfirmation (validateRequest today (extractEntities port (classifyIntent port (normalizeInput s)))))) c6f
          by_cases c7 : (generateResponse (executeTool (checkConfirmation (validateRequest today (extractEntities port (classifyIntent port (normalizeInput s))))))).shouldStop = true
          · rw [if_pos c7]
            refine ⟨?_, ?_, ?_, ?_, ?_⟩
            · exact show (generateResponse (executeTool (checkConfirmation (validateRequest today (extractEntities port (classifyIntent port (normalizeInput s))))))).step_count = s.step_count + 7 by omega
            · exact show (7:ℕ) ≤ 7 by omega
            · exact show (7:ℕ) ≠ 6 by omega
            · exact show (7:ℕ) ≠ 0 by omega
            · exact hne
          · rw [if_neg c7]
            simp only [runLoop]
            refine ⟨?_, ?_, ?_, ?_, ?_⟩
            · exact show (generateResponse (executeTool (checkConfirmation (validateRequest today (extractEntities port (classifyIntent port (normalizeInput s))))))).step_count = s.step_count + 7 by omega
            · exact show (7:ℕ) ≤ 7 by omega
            · exact show (7:ℕ) ≠ 6 by omega
            · exact show (7:ℕ) ≠ 0 by omega
            · exact hne

theorem runInit_shouldStop (f : String) (s : AIGraphState) :
    (runInit f s).shouldStop = s.shouldStop := by
  unfold runInit AIGraphState.shouldStop
  split <;> simp [AIGraphState.withUpdates]

theorem runInit_step_count (f : String) (s : AIGraphState) :
    (runInit f s).step_count =
      s.step_count + (if s.correlation_id.isNone then 1 else 0) := by
  unfold runInit
  by_cases hc : s.correlation_id.isNone = true <;>
    simp [hc, AIGraphState.withUpdates]

theorem runInit_user_input (f : String) (s : AIGraphState) :
    (runInit f s).user_input = s.user_input := by
  unfold runInit
  split <;> simp [AIGraphState.withUpdates]

theorem run_nonempty_of_not_stopped (port : LLMPort) (today : PyDate)
    (fresh : String) (s : AIGraphState) (h : s.shouldStop = false) :
    NonemptyResponse (run port today fresh s) := by
  unfold run
  exact (runLoop_graph port today (runInit fresh s)
    (by rw [runInit_shouldStop]; exact h)).2.2.2.2

theorem run_step_count_eq (port : LLMPort) (today : PyDate)
    (fresh : String) (s : AIGraphState) :
    (run port today fresh s).step_count =
      s.step_count + nodesExecuted port today fresh s +
        (if s.correlation_id.isNone then 1 else 0) := by
  unfold run nodesExecuted
  have h2 := runInit_step_count fresh s
  by_cases hs : (runInit fresh s).shouldStop = true
  · have heq := runLoop_stopped port today (runInit fresh s) hs
    rw [heq]
    have hb := normalizeInput_step_count (runInit fresh s)
    refine show (normalizeInput (runInit fresh s)).step_count
        = s.step_count + 1 + (if s.correlation_id.isNone then 1 else 0) from ?_
    by_cases hc : s.correlation_id.isNone = true <;>
      simp [hc] at h2 ⊢ <;> omega
  · have hs2 : (runInit fresh s).shouldStop = false := by simpa using hs
    have He := (runLoop_graph port today (runInit fresh s) hs2).1
    by_cases hc : s.correlation_id.isNone = true <;>
      simp [hc] at h2 ⊢ <;> omega

theorem run_halted_step_bound (port : LLMPort) (today : PyDate)
    (fresh : String) (s : AIGraphState)
    (hx : nodesExecuted port today fresh s < 7) :
    (run port today fresh s).step_count < s.step_count + 7 := by
  unfold run nodesExecuted at *
  have h2 := runInit_step_count fresh s
  by_cases hs : (runInit fresh s).shouldStop = true
  · have heq := runLoop_stopped port today (runInit fresh s) hs
    rw [heq]
    have hb := normalizeInput_step_count (runInit fresh s)
    refine show (normalizeInput (runInit fresh s)).step_count
        < s.step_count + 7 from ?_
    by_cases hc : s.correlation_id.isNone = true <;>
      simp [hc] at h2 <;> omega
  · have hs2 : (runInit fresh s).shouldStop = false := by simpa using hs
    obtain ⟨He, Hle, Hne6, Hne0, -⟩ := runLoop_graph port today (runInit fresh s) hs2
    by_cases hc : s.correlation_id.isNone = true <;>
      simp [hc] at h2 <;> omega

/-! ## Claim theorems -/

/-- The guard sequence of `execute_tool`, collected into one predicate:
validation PASS, pipeline not halted, intent present, and — when the
intent requires confirmation — status CONFIRMED. -/
def execPreconditions (s : AIGraphState) : Bool :=
  s.validation_result == .PASS && !s.shouldStop && s.intent.isSome &&
    (!(Intent.requiresConfirmation (s.intent.getD .UNKNOWN)) ||
      s.confirmation_status == .CONFIRMED)

theorem executeTool_ite (s : AIGraphState) :
    executeTool s =
      if execPreconditions s then
        s.withUpdates
          { tool_name := some (some (dispatchTool s).1)
            tool_result := some (some (dispatchTool s).2) }
      else s := by
  unfold executeTool execPreconditions
  rcases hi : s.intent with _ | i
  · by_cases hv : s.validation_result = .PASS <;>
      by_cases hst : s.shouldStop = true <;>
      simp [hv, hst]
  · by_cases hv : s.validation_result = .PASS <;>
      by_cases hst : s.shouldStop = true <;>
      by_cases hc : Intent.requiresConfirmation i = true ∧
        ¬s.confirmation_status = .CONFIRMED <;>
      simp [hv, hst, hc] <;>
      try simp_all [not_and_or]
    all_goals
      have hcond : i.requiresConfirmation = false ∨
          s.confirmation_status = ConfirmationStatus.CONFIRMED := by
        by_cases hrc : i.requiresConfirmation = true
        · exact Or.inr (hc hrc)
        · exact Or.inl (by simpa using hrc)
      rw [if_pos hcond]

/-- Claim C1: the tool dispatch (recording a tool name and tool result)
happens exactly when the freshly re-checked preconditions hold —
validation PASS, intent present, pipeline not halted, and CONFIRMED
status whenever the intent requires confirmation; in every other case
`execute_tool` returns its input state unchanged.  (The shipped
dispatch cannot raise, so the `tool_error` half of the dispatch
outcome is the dead catch branch.) -/
theorem execute_tool_guarded (s : AIGraphState) :
    (execPreconditions s = false → executeTool s = s) ∧
    (execPreconditions s = true →
      executeTool s = s.withUpdates
        { tool_name := some (some (dispatchTool s).1)
          tool_result := some (some (dispatchTool s).2) }) := by
  constructor
  · intro hp
    rw [executeTool_ite, hp]
    simp
  · intro hp
    rw [executeTool_ite, hp]
    simp

/-- A concrete state that `execute_tool` must leave unchanged: monetary
intent, PASS validation, but confirmation still PENDING. -/
def pendingCreateState : AIGraphState :=
  { conversation_id := "w1"
    validation_result := .PASS
    intent := some .CREATE_BOLETO
    confirmation_status := .PENDING
    entities := { contact_name := some "maria", amount_cents := some 15000,
                  due_date := some "2099-01-01" } }

/-- A concrete state on which `execute_tool` dispatches: non-monetary
intent with PASS validation. -/
def listState : AIGraphState :=
  { conversation_id := "w2"
    validation_result := .PASS
    intent := some .LIST_BOLETOS }

/-- Witness for C1 at two concrete states. -/
theorem execute_tool_guarded_witness :
    executeTool pendingCreateState = pendingCreateState ∧
    executeTool listState = listState.withUpdates
      { tool_name := some (some (dispatchTool listState).1)
        tool_result := some (some (dispatchTool listState).2) } :=
  ⟨(execute_tool_guarded pendingCreateState).1 (by decide),
   (execute_tool_guarded listState).2 (by decide)⟩

/-- A concrete LLM port for witnesses: classifies every message as
boleto creation with confidence 0.9 (as a kernel-friendly rational) and
extracts a complete entity set. -/
def witnessPortCreate : LLMPort where
  classifyIntent := fun _ =>
    { success := true, intent := some "create_boleto", confidence := Rat.mk' 9 10 }
  extractEntities := fun _ _ =>
    { success := true, contact_name := some "maria",
      amount_cents := some 15000, due_date := some "2099-01-01" }

/-- A concrete LLM port for witnesses: classifies boleto creation at
confidence 0.65, below the threshold. -/
def witnessPortLow : LLMPort where
  classifyIntent := fun _ =>
    { success := true, intent := some "create_boleto", confidence := Rat.mk' 13 20 }
  extractEntities := fun _ _ => { success := true }

/-- The fixed clock used by the witnesses. -/
def witnessToday : PyDate := ⟨2026, 10, 12⟩

/-- Claim C3: on a PASS, non-halted state with a confirmation-required
intent and no rejection keyword in the (re-lowercased) normalized
input, the confirmation gate always moves to PENDING and publishes the
generated confirmation message as both the stored confirmation message
and the turn's response.  The state is universally quantified, so this
covers an entering CONFIRMED status: no branch of the gate preserves
it. -/
theorem confirmation_gate_always_repends (s : AIGraphState) (i : Intent)
    (hv : s.validation_result = .PASS) (h2 : s.shouldStop = false)
    (hi : s.intent = some i) (hr : Intent.requiresConfirmation i = true)
    (hw : hasRejectionWord (pyLower (s.normalized_input.getD "")) = false) :
    (checkConfirmation s).confirmation_status = .PENDING ∧
    (checkConfirmation s).response = some (generateConfirmationMessage s) ∧
    (checkConfirmation s).confirmation_message =
      some (generateConfirmationMessage s) ∧
    (checkConfirmation s).confirmation_status ≠ .CONFIRMED := by
  unfold checkConfirmation
  rw [hi]
  simp [hv, h2, hr, hw, AIGraphState.withUpdates]

/-- A state that enters the gate already CONFIRMED (as the explicit
confirm endpoint produces it): the gate still overwrites it with
PENDING. -/
def confirmedEntryState : AIGraphState :=
  { conversation_id := "w3"
    user_input := "criar boleto 150 maria"
    normalized_input := some "criar boleto 150 maria"
    intent := some .CREATE_BOLETO
    validation_result := .PASS
    confirmation_status := .CONFIRMED
    entities := { contact_name := some "maria", amount_cents := some 15000,
                  due_date := some "2099-01-01" } }

/-- Witness for C3: the gate overwrites an entering CONFIRMED status. -/
theorem confirmation_gate_always_repends_witness :
    (checkConfirmation confirmedEntryState).confirmation_status = .PENDING ∧
    (checkConfirmation confirmedEntryState).response =
      some (generateConfirmationMessage confirmedEntryState) ∧
    (checkConfirmation confirmedEntryState).confirmation_message =
      some (generateConfirmationMessage confirmedEntryState) ∧
    (checkConfirmation confirmedEntryState).confirmation_status ≠ .CONFIRMED :=
  confirmation_gate_always_repends confirmedEntryState .CREATE_BOLETO
    (by decide) (by decide) (by decide) (by decide) (by decide)

/-- Any state whose confirmation was rejected satisfies the stop
predicate and is left untouched by `execute_tool`. -/
theorem executeTool_rejected (t : AIGraphState)
    (ht : t.confirmation_status = .REJECTED) :
    t.shouldStop = true ∧ executeTool t = t := by
  have hstop : t.shouldStop = true := by
    unfold AIGraphState.shouldStop
    simp [ht]
  refine ⟨hstop, ?_⟩
  unfold executeTool
  by_cases hv : t.validation_result ≠ .PASS
  · rw [if_pos hv]
  · rw [if_neg hv, if_pos hstop]

/-- Claim C5: with a confirmation-required intent, PASS validation, a
live pipeline, and a rejection keyword in the normalized input, the
gate sets REJECTED with the fixed cancellation text; and the REJECTED
status is terminal — `execute_tool` leaves any REJECTED state (this
turn's, or any later replay of it) unchanged, because REJECTED makes
`should_stop` true. -/
theorem rejection_is_terminal (s : AIGraphState) (i : Intent)
    (hv : s.validation_result = .PASS) (h2 : s.shouldStop = false)
    (hi : s.intent = some i) (hr : Intent.requiresConfirmation i = true)
    (hw : hasRejectionWord (pyLower (s.normalized_input.getD "")) = true) :
    (checkConfirmation s).confirmation_status = .REJECTED ∧
    (checkConfirmation s).response = some "Operação cancelada." ∧
    executeTool (checkConfirmation s) = checkConfirmation s ∧
    (∀ t : AIGraphState, t.confirmation_status = .REJECTED →
      t.shouldStop = true ∧ executeTool t = t) := by
  have hgate : (checkConfirmation s).confirmation_status = .REJECTED ∧
      (checkConfirmation s).response = some "Operação cancelada." := by
    unfold checkConfirmation
    rw [hi]
    simp [hv, h2, hr, hw, AIGraphState.withUpdates]
  exact ⟨hgate.1, hgate.2,
    (executeTool_rejected (checkConfirmation s) hgate.1).2,
    fun t ht => executeTool_rejected t ht⟩

/-- A state carrying a rejection keyword ("não") for a monetary intent. -/
def rejectionEntryState : AIGraphState :=
  { conversation_id := "w4"
    user_input := "não quero"
    normalized_input := some "não quero"
    intent := some .CREATE_BOLETO
    validation_result := .PASS
    entities := { contact_name := some "maria", amount_cents := some 15000,
                  due_date := some "2099-01-01" } }

/-- Witness for C5 at a concrete rejecting input. -/
theorem rejection_is_terminal_witness :
    (checkConfirmation rejectionEntryState).confirmation_status = .REJECTED ∧
    (checkConfirmation rejectionEntryState).response =
      some "Operação cancelada." ∧
    executeTool (checkConfirmation rejectionEntryState) =
      checkConfirmation rejectionEntryState ∧
    (∀ t : AIGraphState, t.confirmation_status = .REJECTED →
      t.shouldStop = true ∧ executeTool t = t) :=
  rejection_is_terminal rejectionEntryState .CREATE_BOLETO
    (by decide) (by decide) (by decide) (by decide) (by decide)

/-- The value-level error characterization: a present amount outside
(0, 10,000,000] or a present due date that fails to parse or lies
strictly before today. -/
theorem validateValues_ne_iff (today : PyDate) (s : AIGraphState) :
    validateValues today s ≠ [] ↔
      (∃ a, s.entities.amount_cents = some a ∧ (a ≤ 0 ∨ a > 10000000)) ∨
      (∃ d, s.entities.due_date = some d ∧ (strptimeYmd d = none ∨
        ∃ due, strptimeYmd d = some due ∧ PyDate.lt due today = true)) := by
  unfold validateValues
  rcases ham : s.entities.amount_cents with _ | a <;>
    rcases hdd : s.entities.due_date with _ | d
  · simp [ham, hdd]
  · rcases hp : strptimeYmd d with _ | due
    · simp [ham, hdd, hp]
    · by_cases hl : PyDate.lt due today = true
      · simp [ham, hdd, hp, hl]
      · simp [ham, hdd, hp, hl]
  · by_cases h1 : a ≤ 0
    · simp [ham, hdd, h1]
    · by_cases hgt : a > 10000000
      · simp [ham, hdd, h1, hgt]
      · simp [ham, hdd, h1, hgt]
  · rcases hp : strptimeYmd d with _ | due
    · by_cases h1 : a ≤ 0
      · simp [ham, hdd, hp, h1]
      · by_cases hgt : a > 10000000
        · simp [ham, hdd, hp, h1, hgt]
        · simp [ham, hdd, hp, h1, hgt]
    · by_cases hl : PyDate.lt due today = true
      · by_cases h1 : a ≤ 0
        · simp [ham, hdd, hp, hl, h1]
        · by_cases hgt : a > 10000000
          · simp [ham, hdd, hp, hl, h1, hgt]
          · simp [ham, hdd, hp, hl, h1, hgt]
      · by_cases h1 : a ≤ 0
        · simp [ham, hdd, hp, hl, h1]
        · by_cases hgt : a > 10000000
          · simp [ham, hdd, hp, hl, h1, hgt]
          · simp [ham, hdd, hp, hl, h1, hgt]

/-- Claim C6: for a live state with an intent, the validation gate (a)
reports CLARIFY with the ordered missing-field list and the joined
human-readable listing when required fields are missing; (b) otherwise
fails exactly on a non-positive or over-ceiling amount or an unparsable
or past due date, halting with the first error message; (c) otherwise
passes, clears the errors, and does not halt. -/
theorem validation_gate_spec (today : PyDate) (s : AIGraphState) (i : Intent)
    (hi : s.intent = some i) (h2 : s.shouldStop = false) :
    (missingFields s.entities i ≠ [] →
      (validateRequest today s).validation_result = .CLARIFY ∧
      (validateRequest today s).validation_errors = missingFields s.entities i ∧
      (validateRequest today s).response =
        some (clarifyMessage ((missingFields s.entities i).map fieldName)))
    ∧ (validateValues today s ≠ [] ↔
        (∃ a, s.entities.amount_cents = some a ∧ (a ≤ 0 ∨ a > 10000000)) ∨
        (∃ d, s.entities.due_date = some d ∧ (strptimeYmd d = none ∨
          ∃ due, strptimeYmd d = some due ∧ PyDate.lt due today = true)))
    ∧ (missingFields s.entities i = [] → validateValues today s ≠ [] →
      (validateRequest today s).validation_result = .FAIL ∧
      (validateRequest today s).validation_errors = validateValues today s ∧
      (validateRequest today s).response = (validateValues today s).head?)
    ∧ (missingFields s.entities i = [] → validateValues today s = [] →
      (validateRequest today s).validation_result = .PASS ∧
      (validateRequest today s).validation_errors = [] ∧
      (validateRequest today s).response = s.response ∧
      (validateRequest today s).shouldStop = false) := by
  refine ⟨?_, validateValues_ne_iff today s, ?_, ?_⟩
  · intro hm
    unfold validateRequest
    rw [hi]
    simp [h2, hm, AIGraphState.withUpdates]
  · intro hm he
    unfold validateRequest
    rw [hi]
    simp [h2, hm, he, AIGraphState.withUpdates]
  · intro hm he
    unfold validateRequest
    rw [hi]
    unfold AIGraphState.shouldStop at h2 ⊢
    simp only [Bool.or_eq_false_iff] at h2
    simp [h2.1.1, h2.1.2, h2.2, hm, he, AIGraphState.withUpdates]

/-- A creation request with every required entity missing. -/
def clarifyState : AIGraphState :=
  { conversation_id := "w5", intent := some .CREATE_BOLETO }

/-- A creation request whose amount is non-positive. -/
def failAmountState : AIGraphState :=
  { conversation_id := "w6"
    intent := some .CREATE_BOLETO
    entities := { contact_name := some "maria", amount_cents := some (-5),
                  due_date := some "2099-01-01" } }

/-- Witness for C6 at three concrete states, one per gate outcome. -/
theorem validation_gate_spec_witness :
    ((validateRequest witnessToday clarifyState).validation_result = .CLARIFY ∧
      (validateRequest witnessToday clarifyState).validation_errors =
        missingFields clarifyState.entities .CREATE_BOLETO ∧
      (validateRequest witnessToday clarifyState).response =
        some (clarifyMessage
          ((missingFields clarifyState.entities .CREATE_BOLETO).map fieldName))) ∧
    ((validateRequest witnessToday failAmountState).validation_result = .FAIL ∧
      (validateRequest witnessToday failAmountState).validation_errors =
        validateValues witnessToday failAmountState ∧
      (validateRequest witnessToday failAmountState).response =
        (validateValues witnessToday failAmountState).head?) ∧
    ((validateRequest witnessToday listState).validation_result = .PASS ∧
      (validateRequest witnessToday listState).validation_errors = [] ∧
      (validateRequest witnessToday listState).response = listState.response ∧
      (validateRequest witnessToday listState).shouldStop = false) :=
  ⟨(validation_gate_spec witnessToday clarifyState .CREATE_BOLETO
      (by decide) (by decide)).1 (by decide),
   (validation_gate_spec witnessToday failAmountState .CREATE_BOLETO
      (by decide) (by decide)).2.2.1 (by decide) (by decide),
   (validation_gate_spec witnessToday listState .LIST_BOLETOS
      (by decide) (by decide)).2.2.2 (by decide) (by decide)⟩

/-- The number of option lines ("- " bullets) in a menu string. -/
def menuOptionCount (m : String) : Nat :=
  (((splitOnCharList '\n' m.toList).filter
    (fun l => ['-', ' '].isPrefixOf l))).length

/-- A live state with a normalized input, for the low-confidence path. -/
def lowConfState : AIGraphState :=
  { conversation_id := "w7", user_input := "quero algo",
    normalized_input := some "quero algo" }

/-- Counterexample to claim C7 as stated: on CREATE_BOLETO at
confidence 0.65 the node does halt with the fixed menu, but that menu
lists four actionable options, not five — the LIST_BOLETOS intent is
absent (no "list" occurs anywhere in the menu text). -/
theorem low_confidence_menu_lists_four :
    (classifyIntent witnessPortLow lowConfState).intent = some .UNKNOWN ∧
    (classifyIntent witnessPortLow lowConfState).response =
      some lowConfidenceMenu ∧
    menuOptionCount lowConfidenceMenu = 4 ∧
    menuOptionCount lowConfidenceMenu ≠ 5 ∧
    substrIn "list" (pyLower lowConfidenceMenu) = false := by decide

/-- Claim C7 (amended): when the port classifies successfully with
confidence strictly below 0.7, `classify_intent` forces UNKNOWN, keeps
the reported confidence, halts with the fixed disambiguation menu —
which lists the four actionable options (create, cancel, check status,
send message) — and `extract_entities` then returns the state
unchanged for every extraction port, so the extraction port is never
consulted in that run. -/
theorem low_confidence_forces_unknown (port : LLMPort) (s : AIGraphState)
    (t : String) (hn : s.normalized_input = some t)
    (h2 : s.shouldStop = false)
    (hs : (port.classifyIntent t).success = true)
    (hc : (port.classifyIntent t).confidence < CONFIDENCE_THRESHOLD) :
    (classifyIntent port s).intent = some .UNKNOWN ∧
    (classifyIntent port s).intent_confidence =
      (port.classifyIntent t).confidence ∧
    (classifyIntent port s).response = some lowConfidenceMenu ∧
    menuOptionCount lowConfidenceMenu = 4 ∧
    (classifyIntent port s).shouldStop = true ∧
    (∀ p2 : LLMPort,
      extractEntities p2 (classifyIntent port s) = classifyIntent port s) := by
  have hcls : classifyIntent port s = s.withUpdates
      { intent := some (some .UNKNOWN)
        intent_confidence := some (port.classifyIntent t).confidence
        response := some (some lowConfidenceMenu) } := by
    unfold classifyIntent
    rw [hn]
    simp [h2, hs, hc]
  refine ⟨?_, ?_, ?_, by decide, ?_, ?_⟩
  · rw [hcls]; simp [AIGraphState.withUpdates]
  · rw [hcls]; simp [AIGraphState.withUpdates]
  · rw [hcls]; simp [AIGraphState.withUpdates]
  · rw [hcls]; simp [AIGraphState.withUpdates, AIGraphState.shouldStop]
  · intro p2
    rw [hcls]
    unfold extractEntities
    simp [AIGraphState.withUpdates, AIGraphState.shouldStop]

/-- Witness for the amended C7 at the concrete 0.65-confidence port. -/
theorem low_confidence_forces_unknown_witness :
    (classifyIntent witnessPortLow lowConfState).intent = some .UNKNOWN ∧
    (classifyIntent witnessPortLow lowConfState).intent_confidence =
      (witnessPortLow.classifyIntent "quero algo").confidence ∧
    (classifyIntent witnessPortLow lowConfState).response =
      some lowConfidenceMenu ∧
    menuOptionCount lowConfidenceMenu = 4 ∧
    (classifyIntent witnessPortLow lowConfState).shouldStop = true ∧
    (∀ p2 : LLMPort,
      extractEntities p2 (classifyIntent witnessPortLow lowConfState) =
        classifyIntent witnessPortLow lowConfState) :=
  low_confidence_forces_unknown witnessPortLow lowConfState "quero algo"
    (by decide) (by decide) (by decide) (by decide)

/-- Claim C9: empty or whitespace-only raw input makes the normalizer
clear the normalized input and halt the whole run at node one with the
fixed clarification message; any other input is stripped and lowercased
without setting a response (so the node itself never halts a live
pipeline). -/
theorem normalize_empty_vs_nonempty (s : AIGraphState) :
    (pyStrip s.user_input = "" →
      (normalizeInput s).normalized_input = none ∧
      (normalizeInput s).response =
        some "Não entendi sua mensagem. Pode repetir?" ∧
      ∀ (port : LLMPort) (today : PyDate) (fresh : String),
        nodesExecuted port today fresh s = 1 ∧
        (run port today fresh s).response =
          some "Não entendi sua mensagem. Pode repetir?") ∧
    (pyStrip s.user_input ≠ "" →
      (normalizeInput s).normalized_input =
        some (pyStrip (pyLower (pyStrip s.user_input))) ∧
      (normalizeInput s).response = s.response ∧
      (s.shouldStop = false → (normalizeInput s).shouldStop = false)) := by
  constructor
  · intro he
    refine ⟨?_, ?_, ?_⟩
    · unfold normalizeInput
      simp [he, AIGraphState.withUpdates]
    · unfold normalizeInput
      simp [he, AIGraphState.withUpdates]
    · intro port today fresh
      have hui : pyStrip (runInit fresh s).user_input = "" := by
        rw [runInit_user_input]; exact he
      have hnorm : (normalizeInput (runInit fresh s)).shouldStop = true := by
        unfold normalizeInput AIGraphState.shouldStop
        simp [hui, AIGraphState.withUpdates]
      constructor
      · unfold nodesExecuted
        simp only [graphNodes, runLoop_cons]
        rw [if_pos hnorm]
      · unfold run
        simp only [graphNodes, runLoop_cons]
        rw [if_pos hnorm]
        unfold normalizeInput
        simp [hui, AIGraphState.withUpdates]
  · intro he
    have hb : (pyStrip s.user_input == "") = false := by
      simpa using he
    refine ⟨?_, ?_, ?_⟩
    · unfold normalizeInput
      simp [hb, AIGraphState.withUpdates]
    · unfold normalizeInput
      simp [hb, AIGraphState.withUpdates]
    · intro h2
      unfold normalizeInput
      unfold AIGraphState.shouldStop at h2 ⊢
      simp_all [AIGraphState.withUpdates, hb]

/-- A whitespace-only input. -/
def emptyInputState : AIGraphState :=
  { conversation_id := "w9", user_input := "   " }

/-- A non-empty input needing trimming and lowering. -/
def textInputState : AIGraphState :=
  { conversation_id := "w10", user_input := "  OI Maria  " }

/-- Witness for C9 at a whitespace-only and a non-empty input. -/
theorem normalize_empty_vs_nonempty_witness :
    (normalizeInput emptyInputState).normalized_input = none ∧
    (normalizeInput emptyInputState).response =
      some "Não entendi sua mensagem. Pode repetir?" ∧
    nodesExecuted witnessPortCreate witnessToday "w" emptyInputState = 1 ∧
    (run witnessPortCreate witnessToday "w" emptyInputState).response =
      some "Não entendi sua mensagem. Pode repetir?" ∧
    (normalizeInput textInputState).normalized_input =
      some (pyStrip (pyLower (pyStrip textInputState.user_input))) ∧
    (normalizeInput textInputState).response = textInputState.response :=
  have A := (normalize_empty_vs_nonempty emptyInputState).1 (by decide)
  have B := (normalize_empty_vs_nonempty textInputState).2 (by decide)
  ⟨A.1, A.2.1, (A.2.2 witnessPortCreate witnessToday "w").1,
   (A.2.2 witnessPortCreate witnessToday "w").2, B.1, B.2.1⟩

/-- Claim C10: deserializing the serialization of any state restores
every field except `correlation_id`, which is not written to the
document and is `None` after the round trip.  (In this typed embedding
the claim's enum-validity and ISO-round-trip side conditions hold by
construction.) -/
theorem serialization_round_trip (s : AIGraphState) :
    deserializeState (serializeState s) =
      some { s with correlation_id := none } := by
  unfold serializeState deserializeState
  rcases hi : s.intent with _ | i
  · cases hv : s.validation_result <;> cases hc : s.confirmation_status <;>
      simp [validationResultParse, confirmationStatusParse,
        ValidationResult.value, ConfirmationStatus.value]
  · cases i <;> cases hv : s.validation_result <;>
      cases hc : s.confirmation_status <;>
      simp [Intent.value, intentParse, validationResultParse,
        confirmationStatusParse, ValidationResult.value,
        ConfirmationStatus.value]

/-- The first turn of a monetary conversation, as `handle_message`
builds it. -/
def confirmFlowInitial : AIGraphState :=
  { conversation_id := "c2a", user_input := "criar boleto 150 maria" }

/-- The state returned by the first pipeline run (halts at the gate). -/
def confirmFlowFirstRun : AIGraphState :=
  run witnessPortCreate witnessToday "corr1" confirmFlowInitial

/-- The state `handle_confirm` re-enters the pipeline with: status set
to CONFIRMED and response cleared (`ai.py`, confirm branch). -/
def confirmFlowConfirmed : AIGraphState :=
  confirmFlowFirstRun.withUpdates
    { confirmation_status := some .CONFIRMED, response := some none }

/-- The state returned by the confirm-triggered second run. -/
def confirmFlowSecondRun : AIGraphState :=
  run witnessPortCreate witnessToday "corr2" confirmFlowConfirmed

/-- Claim C2, evaluated at its failing input: the first run halts at
the gate with PENDING as specified, but the explicit-confirm second run
never reaches the tool — the gate re-runs, overwrites CONFIRMED with
PENDING, and halts with the same confirmation prompt again, so no tool
name or tool result is ever produced. -/
theorem confirm_rerun_never_reaches_tool :
    confirmFlowFirstRun.confirmation_status = .PENDING ∧
    confirmFlowFirstRun.tool_result = none ∧
    confirmFlowConfirmed.confirmation_status = .CONFIRMED ∧
    confirmFlowSecondRun.confirmation_status = .PENDING ∧
    confirmFlowSecondRun.tool_name = none ∧
    confirmFlowSecondRun.tool_result = none ∧
    confirmFlowSecondRun.response = confirmFlowFirstRun.response := by
  decide

/-- A state a conversation can reach through the HTTP layer: a previous
turn was rejected, and `handle_message` clears only response, tool
result, and tool error before re-running. -/
def rejectedCarryoverState : AIGraphState :=
  { conversation_id := "c4", user_input := "oi",
    confirmation_status := .REJECTED }

/-- Counterexample to claim C4 as stated: on this initial state the
run returns a terminal state whose response is absent — the carried
REJECTED status stops the run right after the normalizer, which set no
response. -/
theorem run_no_response_counterexample :
    (run witnessPortCreate witnessToday "corr" rejectedCarryoverState).response
        = none ∧
    rejectedCarryoverState.shouldStop = true := by decide

/-- Claim C4 (amended): for every initial state that does not already
satisfy the stop predicate, `run` returns (it is a total function of
the embedded pipeline) and its terminal state carries a non-empty
user-facing response, whether it halted early or completed all seven
nodes. -/
theorem run_returns_nonempty_response (port : LLMPort) (today : PyDate)
    (fresh : String) (s : AIGraphState) (h : s.shouldStop = false) :
    ∃ r, (run port today fresh s).response = some r ∧ r ≠ "" :=
  run_nonempty_of_not_stopped port today fresh s h

/-- A fresh one-message conversation. -/
def freshMessageState : AIGraphState :=
  { conversation_id := "c4w", user_input := "oi" }

/-- Witness for the amended C4. -/
theorem run_returns_nonempty_response_witness :
    ∃ r, (run witnessPortCreate witnessToday "corr" freshMessageState).response
        = some r ∧ r ≠ "" :=
  run_returns_nonempty_response witnessPortCreate witnessToday "corr"
    freshMessageState (by decide)

/-- A fresh conversation (no correlation id) whose input is empty. -/
def emptyFreshState : AIGraphState :=
  { conversation_id := "c8", user_input := "" }

/-- Counterexample to claim C8 as stated: on a fresh state the run
executes one node but increases the step counter by two, because the
correlation-id injection itself goes through `with_updates`. -/
theorem step_count_injection_counterexample :
    nodesExecuted witnessPortCreate witnessToday "corr" emptyFreshState = 1 ∧
    (run witnessPortCreate witnessToday "corr" emptyFreshState).step_count = 2 ∧
    (run witnessPortCreate witnessToday "corr" emptyFreshState).step_count ≠
      emptyFreshState.step_count +
        nodesExecuted witnessPortCreate witnessToday "corr" emptyFreshState := by
  decide

/-- Claim C8 (amended): the step counter of the returned state exceeds
the initial one by the number of nodes actually executed, plus one more
when the run had to inject a correlation id; every early-halted run
(fewer than seven nodes) increases it by fewer than seven; and every
`with_updates` call that does not override the step counter produces a
state equal to the original except for the overridden fields, with the
step counter incremented by exactly one. -/
theorem step_count_accounting (port : LLMPort) (today : PyDate)
    (fresh : String) (s : AIGraphState) :
    ((run port today fresh s).step_count =
      s.step_count + nodesExecuted port today fresh s +
        (if s.correlation_id.isNone then 1 else 0)) ∧
    (nodesExecuted port today fresh s < 7 →
      (run port today fresh s).step_count < s.step_count + 7) ∧
    (∀ o : Overrides, o.step_count = none →
      (s.withUpdates o).step_count = s.step_count + 1 ∧
        (o.conversation_id = none → (s.withUpdates o).conversation_id = s.conversation_id) ∧
        (∀ v, o.conversation_id = some v → (s.withUpdates o).conversation_id = v) ∧
        (o.tenant_id = none → (s.withUpdates o).tenant_id = s.tenant_id) ∧
        (∀ v, o.tenant_id = some v → (s.withUpdates o).tenant_id = v) ∧
        (o.user_id = none → (s.withUpdates o).user_id = s.user_id) ∧
        (∀ v, o.user_id = some v → (s.withUpdates o).user_id = v) ∧
        (o.user_input = none → (s.withUpdates o).user_input = s.user_input) ∧
        (∀ v, o.user_input = some v → (s.withUpdates o).user_input = v) ∧
        (o.input_type = none → (s.withUpdates o).input_type = s.input_type) ∧
        (∀ v, o.input_type = some v → (s.withUpdates o).input_type = v) ∧
        (o.normalized_input = none → (s.withUpdates o).normalized_input = s.normalized_input) ∧
        (∀ v, o.normalized_input = some v → (s.withUpdates o).normalized_input = v) ∧
        (o.intent = none → (s.withUpdates o).intent = s.intent) ∧
        (∀ v, o.intent = some v → (s.withUpdates o).intent = v) ∧
        (o.intent_confidence = none → (s.withUpdates o).intent_confidence = s.intent_confidence) ∧
        (∀ v, o.intent_confidence = some v → (s.withUpdates o).intent_confidence = v) ∧
        (o.entities = none → (s.withUpdates o).entities = s.entities) ∧
        (∀ v, o.entities = some v → (s.withUpdates o).entities = v) ∧
        (o.validation_result = none → (s.withUpdates o).validation_result = s.validation_result) ∧
        (∀ v, o.validation_result = some v → (s.withUpdates o).validation_result = v) ∧
        (o.validation_errors = none → (s.withUpdates o).validation_errors = s.validation_errors) ∧
        (∀ v, o.validation_errors = some v → (s.withUpdates o).validation_errors = v) ∧
        (o.confirmation_status = none → (s.withUpdates o).confirmation_status = s.confirmation_status) ∧
        (∀ v, o.confirmation_status = some v → (s.withUpdates o).confirmation_status = v) ∧
        (o.confirmation_message = none → (s.withUpdates o).confirmation_message = s.confirmation_message) ∧
        (∀ v, o.confirmation_message = some v → (s.withUpdates o).confirmation_message = v) ∧
        (o.tool_name = none → (s.withUpdates o).tool_name = s.tool_name) ∧
        (∀ v, o.tool_name = some v → (s.withUpdates o).tool_name = v) ∧
        (o.tool_result = none → (s.withUpdates o).tool_result = s.tool_result) ∧
        (∀ v, o.tool_result = some v → (s.withUpdates o).tool_result = v) ∧
        (o.tool_error = none → (s.withUpdates o).tool_error = s.tool_error) ∧
        (∀ v, o.tool_error = some v → (s.withUpdates o).tool_error = v) ∧
        (o.response = none → (s.withUpdates o).response = s.response) ∧
        (∀ v, o.response = some v → (s.withUpdates o).response = v) ∧
        (o.created_at = none → (s.withUpdates o).created_at = s.created_at) ∧
        (∀ v, o.created_at = some v → (s.withUpdates o).created_at = v) ∧
        (o.correlation_id = none → (s.withUpdates o).correlation_id = s.correlation_id) ∧
        (∀ v, o.correlation_id = some v → (s.withUpdates o).correlation_id = v)) :=
  ⟨run_step_count_eq port today fresh s,
   run_halted_step_bound port today fresh s,
   fun o ho =>
    ⟨by simp [AIGraphState.withUpdates, ho],
     fun h => by simp [AIGraphState.withUpdates, h],
     fun v h => by simp [AIGraphState.withUpdates, h],
     fun h => by simp [AIGraphState.withUpdates, h],
     fun v h => by simp [AIGraphState.withUpdates, h],
     fun h => by simp [AIGraphState.withUpdates, h],
     fun v h => by simp [AIGraphState.withUpdates, h],
     fun h => by simp [AIGraphState.withUpdates, h],
     fun v h => by simp [AIGraphState.withUpdates, h],
     fun h => by simp [AIGraphState.withUpdates, h],
     fun v h => by simp [AIGraphState.withUpdates, h],
     fun h => by simp [AIGraphState.withUpdates, h],
     fun v h => by simp [AIGraphState.withUpdates, h],
     fun h => by simp [AIGraphState.withUpdates, h],
     fun v h => by simp [AIGraphState.withUpdates, h],
     fun h => by simp [AIGraphState.withUpdates, h],
     fun v h => by simp [AIGraphState.withUpdates, h],
     fun h => by simp [AIGraphState.withUpdates, h],
     fun v h => by simp [AIGraphState.withUpdates, h],
     fun h => by simp [AIGraphState.withUpdates, h],
     fun v h => by simp [AIGraphState.withUpdates, h],
     fun h => by simp [AIGraphState.withUpdates, h],
     fun v h => by simp [AIGraphState.withUpdates, h],
     fun h => by simp [AIGraphState.withUpdates, h],
     fun v h => by simp [AIGraphState.withUpdates, h],
     fun h => by simp [AIGraphState.withUpdates, h],
     fun v h => by simp [AIGraphState.withUpdates, h],
     fun h => by simp [AIGraphState.withUpdates, h],
     fun v h => by simp [AIGraphState.withUpdates, h],
     fun h => by simp [AIGraphState.withUpdates, h],
     fun v h => by simp [AIGraphState.withUpdates, h],
     fun h => by simp [AIGraphState.withUpdates, h],
     fun v h => by simp [AIGraphState.withUpdates, h],
     fun h => by simp [AIGraphState.withUpdates, h],
     fun v h => by simp [AIGraphState.withUpdates, h],
     fun h => by simp [AIGraphState.withUpdates, h],
     fun v h => by simp [AIGraphState.withUpdates, h],
     fun h => by simp [AIGraphState.withUpdates, h],
     fun v h => by simp [AIGraphState.withUpdates, h]⟩⟩

/-- Witness for the amended C8. -/
theorem step_count_accounting_witness :
    ((run witnessPortCreate witnessToday "w8" emptyFreshState).step_count =
      emptyFreshState.step_count +
        nodesExecuted witnessPortCreate witnessToday "w8" emptyFreshState +
        (if emptyFreshState.correlation_id.isNone then 1 else 0)) ∧
    ((run witnessPortCreate witnessToday "w8" emptyFreshState).step_count <
      emptyFreshState.step_count + 7) ∧
    ((emptyFreshState.withUpdates
        { response := some (some "x") }).step_count =
      emptyFreshState.step_count + 1) ∧
    ((emptyFreshState.withUpdates
        { response := some (some "x") }).conversation_id =
      emptyFreshState.conversation_id) :=
  have H := step_count_accounting witnessPortCreate witnessToday "w8"
    emptyFreshState
  ⟨H.1, H.2.1 (by decide),
   (H.2.2 { response := some (some "x") } rfl).1,
   (H.2.2 { response := some (some "x") } rfl).2.1 rfl⟩

end IRIS